import Mathlib

/-!
Verification development for the `DS_SQL.ipynb` notebook of the WQU_LAMBDA
repository.  The notebook drops and recreates three SQLite tables
(`customers`, `products`, `orders`), inserts literal sample rows, bulk-loads
three CSV files through pandas `to_sql(..., if_exists="replace")`, and runs a
sequence of read-only `SELECT` queries.  We give a shallow embedding of the
SQL values, schemas, database states and the notebook's operation sequence,
with an engine-semantics `exec` that checks the declared constraints
(arity, primary-key uniqueness, foreign keys) the way the specification
describes the database engine behaving.
-/

namespace DSQL

/-- SQL values appearing in the notebook: integers, numerics and text.
Numeric values are modelled exactly as rationals. -/
inductive SqlVal where
  | int  : Int → SqlVal
  | num  : ℚ → SqlVal
  | text : String → SqlVal
deriving DecidableEq

/-- Column types used in the notebook's CREATE TABLE statements:
INTEGER, NUMBER and TEXT. -/
inductive ColType where
  | integer : ColType
  | number  : ColType
  | text    : ColType
deriving DecidableEq

/-- One column declaration of a CREATE TABLE statement: its name, its type,
whether it is declared PRIMARY KEY and whether it is declared NOT NULL. -/
structure ColDecl where
  cname      : String
  ctype      : ColType
  primaryKey : Bool
  notNull    : Bool
deriving DecidableEq

/-- A FOREIGN KEY(column) REFERENCES refTable(refColumn) clause. -/
structure FKey where
  column    : String
  refTable  : String
  refColumn : String
deriving DecidableEq

/-- A table schema: the column declarations in order, plus the foreign-key
clauses. -/
structure TableSchema where
  cols        : List ColDecl
  foreignKeys : List FKey
deriving DecidableEq

/-- A table: its schema together with its rows, each row a list of values in
column order (row order is insertion order, as SQLite reports without
ORDER BY). -/
structure Table where
  schema : TableSchema
  rows   : List (List SqlVal)
deriving DecidableEq

/-- A database state: an association list from table names to tables. -/
abbrev Db := List (String × Table)

/-- Look a table up by name. -/
def lookupTable : Db → String → Option Table
  | [], _ => none
  | (m, u) :: rest, n => if m = n then some u else lookupTable rest n

/-- Replace the named table (or append it if absent). -/
def setTable : Db → String → Table → Db
  | [], n, t => [(n, t)]
  | (m, u) :: rest, n, t => if m = n then (n, t) :: rest else (m, u) :: setTable rest n t

/-- Remove the named table if present. -/
def dropTable : Db → String → Db
  | [], _ => []
  | (m, u) :: rest, n => if m = n then dropTable rest n else (m, u) :: dropTable rest n

/-- Index of a column name in a list of column declarations. -/
def colIdxAux : List ColDecl → String → Option Nat
  | [], _ => none
  | d :: rest, c => if d.cname = c then some 0 else (colIdxAux rest c).map Nat.succ

/-- Index of a column name in a schema. -/
def colIdx (s : TableSchema) (c : String) : Option Nat :=
  colIdxAux s.cols c

/-- The value a row holds in the named column, per the schema. -/
def rowValAt (s : TableSchema) (c : String) (r : List SqlVal) : Option SqlVal :=
  (colIdx s c).bind (fun i => r.get? i)

/-- All values of a table's named column, top to bottom. -/
def colVals (t : Table) (c : String) : List SqlVal :=
  match colIdx t.schema c with
  | some i => t.rows.filterMap (fun r => r.get? i)
  | none => []

/-- All values of the named column of the named table of a database
(empty when the table or the column is missing). -/
def dbColVals (db : Db) (tn cn : String) : List SqlVal :=
  match lookupTable db tn with
  | some t => colVals t cn
  | none => []

/-- The column names of a schema, in order. -/
def colNames (s : TableSchema) : List String :=
  s.cols.map (fun d => d.cname)

/-- Schema of `customers` from the notebook's CREATE TABLE: id INTEGER
PRIMARY KEY NOT NULL, name TEXT NOT NULL, billing_address TEXT NOT NULL. -/
def customersSchema : TableSchema :=
  ⟨[⟨"id", ColType.integer, true, true⟩,
    ⟨"name", ColType.text, false, true⟩,
    ⟨"billing_address", ColType.text, false, true⟩], []⟩

/-- Schema of `products` from the notebook's CREATE TABLE: id INTEGER
PRIMARY KEY NOT NULL, price NUMBER NOT NULL. -/
def productsSchema : TableSchema :=
  ⟨[⟨"id", ColType.integer, true, true⟩,
    ⟨"price", ColType.number, false, true⟩], []⟩

/-- Schema of `orders` from the notebook's CREATE TABLE: id INTEGER NOT
NULL (no PRIMARY KEY), customer_id NUMBER NOT NULL, product_id NUMBER NOT
NULL, delivery_address TEXT NOT NULL, with foreign keys to customers(id)
and products(id). -/
def ordersSchema : TableSchema :=
  ⟨[⟨"id", ColType.integer, false, true⟩,
    ⟨"customer_id", ColType.number, false, true⟩,
    ⟨"product_id", ColType.number, false, true⟩,
    ⟨"delivery_address", ColType.text, false, true⟩],
   [⟨"customer_id", "customers", "id"⟩,
    ⟨"product_id", "products", "id"⟩]⟩

/-- The literal rows of the notebook's INSERT INTO customers statement. -/
def customersRows : List (List SqlVal) :=
  [[SqlVal.int 435, SqlVal.text "Omar", SqlVal.text "Berlin, Germany"],
   [SqlVal.int 5692, SqlVal.text "Stuart", SqlVal.text "Dover, UK"],
   [SqlVal.int 6127, SqlVal.text "Vidhya", SqlVal.text "Mumbai, India"]]

/-- The literal rows of the notebook's INSERT INTO products statement. -/
def productsRows : List (List SqlVal) :=
  [[SqlVal.int 103, SqlVal.num 6.95],
   [SqlVal.int 4028, SqlVal.num 35.5],
   [SqlVal.int 3158, SqlVal.num 101.99],
   [SqlVal.int 2561, SqlVal.num 21.35],
   [SqlVal.int 89, SqlVal.num 16.95]]

/-- The rows of the first INSERT INTO orders statement. -/
def ordersRows1 : List (List SqlVal) :=
  [[SqlVal.int 62353, SqlVal.int 435, SqlVal.int 103, SqlVal.text "Munich, Germany"],
   [SqlVal.int 62353, SqlVal.int 435, SqlVal.int 4028, SqlVal.text "Tunis, Tunisia"]]

/-- The rows of the second INSERT INTO orders statement. -/
def ordersRows2 : List (List SqlVal) :=
  [[SqlVal.int 64598, SqlVal.int 5692, SqlVal.int 103, SqlVal.text "Dover, UK"],
   [SqlVal.int 65271, SqlVal.int 5692, SqlVal.int 103, SqlVal.text "Dover, UK"]]

/-- The rows of the third INSERT INTO orders statement. -/
def ordersRows3 : List (List SqlVal) :=
  [[SqlVal.int 64921, SqlVal.int 6127, SqlVal.int 3158, SqlVal.text "Mumbai, India"],
   [SqlVal.int 64989, SqlVal.int 6127, SqlVal.int 2561, SqlVal.text "Mumbai, India"],
   [SqlVal.int 64989, SqlVal.int 6127, SqlVal.int 89, SqlVal.text "Mumbai, India"]]

/-- All seven literal order rows, in insertion order. -/
def ordersRowsLit : List (List SqlVal) :=
  ordersRows1 ++ ordersRows2 ++ ordersRows3

/-- Statements executed against the database, as the notebook issues them.
Besides the statement forms the notebook actually uses (DROP TABLE IF
EXISTS, CREATE TABLE, INSERT ... VALUES, SELECT, and a pandas
`read_csv`/`to_sql` bulk replace), the type also has UPDATE, DELETE and a
try/except handler so that their absence from the notebook is expressible. -/
inductive Op where
  | dropTableIfExists (table : String)
  | createTable (table : String) (schema : TableSchema)
  | insert (table : String) (rows : List (List SqlVal))
  | select (tables : List String) (star : Bool) (refs : List (String × String))
  | bulkReplace (csvPath : String) (table : String)
  | update (table : String) (col : String) (v : SqlVal) (whereCol : String) (wv : SqlVal)
  | delete (table : String) (whereCol : String) (wv : SqlVal)
  | tryExcept (body handler : Op)
deriving DecidableEq

/-- Errors the modelled engine can raise. -/
inductive SqlError where
  | tableExists (t : String)
  | noSuchTable (t : String)
  | arityMismatch
  | pkViolation
  | fkViolation
  | noSuchFile (p : String)
deriving DecidableEq

/-- A foreign-key check for one row against the current database: for every
FOREIGN KEY clause of the schema, the row's value in the constrained column
occurs in the referenced column of the referenced table. -/
def fkRowOk (db : Db) (s : TableSchema) (r : List SqlVal) : Prop :=
  ∀ fk ∈ s.foreignKeys, ∀ v ∈ (rowValAt s fk.column r).toList,
    v ∈ dbColVals db fk.refTable fk.refColumn

instance (db : Db) (s : TableSchema) (r : List SqlVal) : Decidable (fkRowOk db s r) := by
  unfold fkRowOk; infer_instance

/-- A primary-key check for a batch of new rows: for every column declared
PRIMARY KEY, the existing values together with the new values are pairwise
distinct. -/
def pkOk (t : Table) (rs : List (List SqlVal)) : Prop :=
  ∀ d ∈ t.schema.cols, d.primaryKey = true →
    (colVals t d.cname ++ colVals ⟨t.schema, rs⟩ d.cname).Nodup

instance (t : Table) (rs : List (List SqlVal)) : Decidable (pkOk t rs) := by
  unfold pkOk; infer_instance

/-- The environment of CSV files visible to `read_csv`: a map from file
path to optional tabular contents. -/
abbrev CsvEnv := String → Option Table

/-- Pandas `DataFrame.to_sql` creates a plain table from the frame: same
column names and rows, but none of the hand-written schema's constraint
declarations (no PRIMARY KEY, no NOT NULL, no FOREIGN KEY). -/
def pandasTable (t : Table) : Table :=
  ⟨⟨t.schema.cols.map (fun d => ⟨d.cname, d.ctype, false, false⟩), []⟩, t.rows⟩

/-- Engine semantics of one statement.  DROP IF EXISTS never fails; CREATE
fails on an existing table; INSERT checks arity, primary-key uniqueness and
the declared foreign keys, then appends the rows; SELECT leaves the state
unchanged; the pandas bulk load replaces the whole table by the CSV
contents stripped of constraints; UPDATE rewrites matching fields and
DELETE removes matching rows (neither is used by the notebook); a
try/except falls back to its handler on error. -/
def exec (env : CsvEnv) (db : Db) : Op → Except SqlError Db
  | Op.dropTableIfExists t => Except.ok (dropTable db t)
  | Op.createTable t s =>
      match lookupTable db t with
      | some _ => Except.error (SqlError.tableExists t)
      | none => Except.ok (setTable db t ⟨s, []⟩)
  | Op.insert t rs =>
      match lookupTable db t with
      | none => Except.error (SqlError.noSuchTable t)
      | some tb =>
          if ∀ r ∈ rs, r.length = tb.schema.cols.length then
            if pkOk tb rs then
              if ∀ r ∈ rs, fkRowOk db tb.schema r then
                Except.ok (setTable db t ⟨tb.schema, tb.rows ++ rs⟩)
              else Except.error SqlError.fkViolation
            else Except.error SqlError.pkViolation
          else Except.error SqlError.arityMismatch
  | Op.select _ _ _ => Except.ok db
  | Op.bulkReplace p t =>
      match env p with
      | none => Except.error (SqlError.noSuchFile p)
      | some tb => Except.ok (setTable db t (pandasTable tb))
  | Op.update t c v wc wv =>
      match lookupTable db t with
      | none => Except.error (SqlError.noSuchTable t)
      | some tb =>
          Except.ok (setTable db t ⟨tb.schema,
            tb.rows.map (fun r =>
              if rowValAt tb.schema wc r = some wv then
                match colIdx tb.schema c with
                | some i => r.set i v
                | none => r
              else r)⟩)
  | Op.delete t wc wv =>
      match lookupTable db t with
      | none => Except.error (SqlError.noSuchTable t)
      | some tb =>
          Except.ok (setTable db t ⟨tb.schema,
            tb.rows.filter (fun r => ¬ (rowValAt tb.schema wc r = some wv))⟩)
  | Op.tryExcept b h =>
      match exec env db b with
      | Except.ok d => Except.ok d
      | Except.error _ => exec env db h

/-- Run a statement sequence, stopping at the first error, which is
returned unchanged. -/
def execAll (env : CsvEnv) (db : Db) : List Op → Except SqlError Db
  | [] => Except.ok db
  | op :: rest =>
      match exec env db op with
      | Except.ok d => execAll env d rest
      | Except.error e => Except.error e

/-- The notebook's statements in execution order.  Indices 0 to 5 are the
three DROP TABLE IF EXISTS and three CREATE TABLE statements of the first
SQL cell; 6 the first SELECT; 7 to 11 the five literal INSERT statements;
12 to 14 the confirmation SELECTs; 15 to 17 the three pandas
`read_csv`/`to_sql` bulk loads; 18 onward the filtering, sorting,
aggregation, join and subquery SELECTs.  A SELECT records the tables it
reads, whether it selects *, and the (table, column) references its text
names explicitly. -/
def notebookOps : List Op :=
  [Op.dropTableIfExists "customers",
   Op.dropTableIfExists "products",
   Op.dropTableIfExists "orders",
   Op.createTable "customers" customersSchema,
   Op.createTable "products" productsSchema,
   Op.createTable "orders" ordersSchema,
   Op.select ["customers"] true [],
   Op.insert "customers" customersRows,
   Op.insert "products" productsRows,
   Op.insert "orders" ordersRows1,
   Op.insert "orders" ordersRows2,
   Op.insert "orders" ordersRows3,
   Op.select ["customers"] true [],
   Op.select ["products"] true [],
   Op.select ["orders"] true [],
   Op.bulkReplace "data/customers.csv" "customers",
   Op.bulkReplace "data/products.csv" "products",
   Op.bulkReplace "data/orders.csv" "orders",
   Op.select ["orders"] false [("orders", "id"), ("orders", "delivery_country")],
   Op.select ["products"] true [("products", "price")],
   Op.select ["orders"] false [("orders", "id"), ("orders", "delivery_country")],
   Op.select ["orders"] true [("orders", "customer_id")],
   Op.select ["orders"] true [("orders", "customer_id"), ("orders", "delivery_country")],
   Op.select ["products"] true [("products", "price")],
   Op.select ["orders"] true [("orders", "customer_id")],
   Op.select ["orders"] true [("orders", "customer_id"), ("orders", "product_id")],
   Op.select ["products"] false [("products", "price")],
   Op.select ["orders"] false [("orders", "delivery_country"), ("orders", "id")],
   Op.select ["orders", "products"] false
     [("orders", "product_id"), ("products", "id"), ("products", "price")],
   Op.select ["orders", "products"] false
     [("products", "price"), ("products", "id"), ("orders", "product_id")],
   Op.select ["orders", "products", "customers"] false
     [("customers", "name"), ("products", "price"), ("products", "id"),
      ("orders", "product_id"), ("customers", "id"), ("orders", "customer_id")],
   Op.select ["orders", "customers", "products"] false
     [("customers", "billing_country"), ("orders", "delivery_country"),
      ("products", "price"), ("orders", "customer_id"), ("customers", "id"),
      ("orders", "product_id"), ("products", "id")]]

/-- The database state after the first n notebook statements. -/
def traceAfter (env : CsvEnv) (n : Nat) : Except SqlError Db :=
  execAll env [] (notebookOps.take n)

/-- The database state after the six DROP and CREATE statements and the
five literal INSERT statements (statement index 12): the three tables with
their hand-written schemas and the literal rows. -/
def dbLiteral : Db :=
  [("customers", ⟨customersSchema, customersRows⟩),
   ("products", ⟨productsSchema, productsRows⟩),
   ("orders", ⟨ordersSchema, ordersRowsLit⟩)]

instance {ε α : Type _} [DecidableEq ε] [DecidableEq α] : DecidableEq (Except ε α) := fun x y =>
  match x, y with
  | Except.ok a, Except.ok b =>
      if h : a = b then isTrue (by rw [h])
      else isFalse (fun hh => h (Except.ok.inj hh))
  | Except.ok _, Except.error _ => isFalse (fun hh => Except.noConfusion hh)
  | Except.error _, Except.ok _ => isFalse (fun hh => Except.noConfusion hh)
  | Except.error e, Except.error f =>
      if h : e = f then isTrue (by rw [h])
      else isFalse (fun hh => h (Except.error.inj hh))

/-- Modelled from the spec: the file `data/customers.csv` is not under
src/.  The spec describes the CSV data as "a larger version of the above
data set", read by pandas; the notebook's later queries select a
`billing_country` column from it and join it on `id`.  We model it as the
three sample customers (with country-level billing data) plus one further
customer. -/
def csvCustomers : Table :=
  ⟨⟨[⟨"id", ColType.integer, false, false⟩,
     ⟨"name", ColType.text, false, false⟩,
     ⟨"billing_country", ColType.text, false, false⟩], []⟩,
   [[SqlVal.int 435, SqlVal.text "Omar", SqlVal.text "Germany"],
    [SqlVal.int 5692, SqlVal.text "Stuart", SqlVal.text "UK"],
    [SqlVal.int 6127, SqlVal.text "Vidhya", SqlVal.text "India"],
    [SqlVal.int 10, SqlVal.text "Ann", SqlVal.text "Canada"]]⟩

/-- Modelled from the spec: the file `data/products.csv` is not under
src/.  The spec describes it as a larger version of the sample products
table (id and price), so we model it as the five sample products plus one
further product. -/
def csvProducts : Table :=
  ⟨⟨[⟨"id", ColType.integer, false, false⟩,
     ⟨"price", ColType.number, false, false⟩], []⟩,
   [[SqlVal.int 103, SqlVal.num 6.95],
    [SqlVal.int 4028, SqlVal.num 35.5],
    [SqlVal.int 3158, SqlVal.num 101.99],
    [SqlVal.int 2561, SqlVal.num 21.35],
    [SqlVal.int 89, SqlVal.num 16.95],
    [SqlVal.int 200, SqlVal.num 9.99]]⟩

/-- Modelled from the spec: the file `data/orders.csv` is not under src/.
The spec describes it as a larger version of the sample orders and states
the referential-integrity invariant for it; the notebook's later queries
select a `delivery_country` column from it.  We model it as the sample
orders (with country-level delivery data) plus one further order, all
references resolving in the modelled customer and product CSV data. -/
def csvOrders : Table :=
  ⟨⟨[⟨"id", ColType.integer, false, false⟩,
     ⟨"customer_id", ColType.number, false, false⟩,
     ⟨"product_id", ColType.number, false, false⟩,
     ⟨"delivery_country", ColType.text, false, false⟩], []⟩,
   [[SqlVal.int 62353, SqlVal.int 435, SqlVal.int 103, SqlVal.text "Germany"],
    [SqlVal.int 62353, SqlVal.int 435, SqlVal.int 4028, SqlVal.text "Tunisia"],
    [SqlVal.int 64598, SqlVal.int 5692, SqlVal.int 103, SqlVal.text "UK"],
    [SqlVal.int 70001, SqlVal.int 10, SqlVal.int 200, SqlVal.text "India"]]⟩

/-- The three CSV files of the notebook's data directory, as a CSV
environment. -/
def stdCsvEnv : CsvEnv := fun p =>
  if p = "data/customers.csv" then some csvCustomers
  else if p = "data/products.csv" then some csvProducts
  else if p = "data/orders.csv" then some csvOrders
  else none

/-- Result rows of `SELECT * FROM t`: all rows of the table, in stored
order, or nothing when the table does not exist. -/
def selectStarRows (db : Db) (t : String) : Option (List (List SqlVal)) :=
  (lookupTable db t).map Table.rows

/-- Referential integrity of a database state as the spec states it: every
value of orders.customer_id occurs among customers.id, and every value of
orders.product_id occurs among products.id. -/
def ordersRefIntegrity (db : Db) : Prop :=
  (∀ v ∈ dbColVals db "orders" "customer_id", v ∈ dbColVals db "customers" "id") ∧
  (∀ v ∈ dbColVals db "orders" "product_id", v ∈ dbColVals db "products" "id")

/-- The tables the notebook's INSERT statements target, in statement
order. -/
def insertTargets : List String :=
  notebookOps.filterMap (fun op =>
    match op with
    | Op.insert t _ => some t
    | _ => none)

/-- The (CSV path, target table) pairs of the notebook's bulk loads, in
statement order. -/
def bulkLoads : List (String × String) :=
  notebookOps.filterMap (fun op =>
    match op with
    | Op.bulkReplace p t => some (p, t)
    | _ => none)

/-- Whether a statement is an UPDATE or a DELETE. -/
def isUpdateOrDelete : Op → Bool
  | Op.update _ _ _ _ _ => true
  | Op.delete _ _ _ => true
  | _ => false

/-- Whether a statement is a try/except handler (any nested handler has
one at its root, since only tryExcept nodes have children). -/
def hasHandler : Op → Bool
  | Op.tryExcept _ _ => true
  | _ => false

/-- Whether a statement is a pandas bulk load, the only statement form
that reads external input. -/
def isBulk : Op → Bool
  | Op.bulkReplace _ _ => true
  | _ => false

/-- A schema carrying none of the hand-written constraints: no PRIMARY
KEY, no NOT NULL, no FOREIGN KEY. -/
def schemaUnconstrained (s : TableSchema) : Prop :=
  (∀ d ∈ s.cols, d.primaryKey = false ∧ d.notNull = false) ∧ s.foreignKeys = []

/-- The (table, column) references a statement's SQL text names. -/
def refsOf : Op → List (String × String)
  | Op.select _ _ refs => refs
  | _ => []

/-- All (table, column) references of the notebook's statements after the
three bulk loads (statement index 18 onward). -/
def postLoadColumnRefs : List (String × String) :=
  (notebookOps.drop 18).flatMap refsOf

/-- The price a row of a products table contributes to SUM(p.price). -/
def priceQ (ps : Table) (r : List SqlVal) : ℚ :=
  match rowValAt ps.schema "price" r with
  | some (SqlVal.num q) => q
  | some (SqlVal.int n) => (n : ℚ)
  | _ => 0

/-- SQL equality of two (possibly missing) values, as a Boolean. -/
def valEqB : Option SqlVal → Option SqlVal → Bool
  | some a, some b => decide (a = b)
  | _, _ => false

/-- SELECT SUM(p.price) FROM orders AS o JOIN products AS p ON
o.product_id = p.id: each orders row is joined with the products rows
matching the ON condition, and the prices of the joined rows are
summed. -/
def sumPriceJoinOn (os ps : Table) : ℚ :=
  (os.rows.flatMap (fun o =>
    (ps.rows.filter (fun p =>
      valEqB (rowValAt os.schema "product_id" o) (rowValAt ps.schema "id" p))).map
      (fun p => priceQ ps p))).sum

/-- SELECT SUM(p.price) FROM orders o, products p WHERE p.id =
o.product_id: the cross product of the two tables is filtered by the WHERE
condition, and the prices of the surviving rows are summed. -/
def sumPriceCommaWhere (os ps : Table) : ℚ :=
  (((os.rows.flatMap (fun o => ps.rows.map (fun p => (o, p)))).filter (fun q =>
      valEqB (rowValAt ps.schema "id" q.2) (rowValAt os.schema "product_id" q.1))).map
    (fun q => priceQ ps q.2)).sum

/-- Running an appended statement sequence runs the first part, then the
second from the state the first reached. -/
theorem execAll_append (env : CsvEnv) (db : Db) (l1 l2 : List Op) :
    execAll env db (l1 ++ l2) =
      match execAll env db l1 with
      | Except.ok d => execAll env d l2
      | Except.error e => Except.error e := by
  induction l1 generalizing db with
  | nil => simp [execAll]
  | cons op rest ih =>
      simp only [List.cons_append, execAll]
      cases exec env db op with
      | ok d => exact ih d
      | error e => rfl

/-- Looking a table up after setting one: the set table when the names
match, the old lookup otherwise. -/
theorem lookupTable_setTable (db : Db) (n m : String) (t : Table) :
    lookupTable (setTable db n t) m = if n = m then some t else lookupTable db m := by
  induction db with
  | nil =>
      by_cases h : n = m <;> simp [setTable, lookupTable, h]
  | cons kv rest ih =>
      obtain ⟨k, u⟩ := kv
      by_cases hkn : k = n
      · subst hkn
        by_cases hnm : k = m <;> simp [setTable, lookupTable, hnm]
      · by_cases hkm : k = m
        · subst hkm
          have hnm : ¬ n = k := fun hh => hkn hh.symm
          simp [setTable, lookupTable, hkn, hnm, ih]
        · simp [setTable, lookupTable, hkn, hkm, ih]

/-- The pandas-written copy of a table has the same columns and rows, so
the same column values. -/
theorem colVals_pandasTable (t : Table) (c : String) :
    colVals (pandasTable t) c = colVals t c := by
  have h : ∀ ds : List ColDecl,
      colIdxAux (ds.map (fun d => (⟨d.cname, d.ctype, false, false⟩ : ColDecl))) c =
        colIdxAux ds c := by
    intro ds
    induction ds with
    | nil => rfl
    | cons d rest ih => by_cases hd : d.cname = c <;> simp [colIdxAux, hd, ih]
  unfold colVals pandasTable colIdx
  simp only [h]

/-- A schema has the named column as a unique integer key: declared
INTEGER and PRIMARY KEY. -/
def uniqueIntKey (s : TableSchema) (c : String) : Prop :=
  ∃ d ∈ s.cols, d.cname = c ∧ d.ctype = ColType.integer ∧ d.primaryKey = true

instance (s : TableSchema) (c : String) : Decidable (uniqueIntKey s c) := by
  unfold uniqueIntKey; infer_instance

/-- A schema has a column of the given name and type. -/
def hasCol (s : TableSchema) (c : String) (ty : ColType) : Prop :=
  ∃ d ∈ s.cols, d.cname = c ∧ d.ctype = ty

instance (s : TableSchema) (c : String) (ty : ColType) : Decidable (hasCol s c ty) := by
  unfold hasCol; infer_instance

/-- Every column of the schema is declared NOT NULL. -/
def allNotNull (s : TableSchema) : Prop := ∀ d ∈ s.cols, d.notNull = true

instance (s : TableSchema) : Decidable (allNotNull s) := by
  unfold allNotNull; infer_instance

instance (s : TableSchema) : Decidable (schemaUnconstrained s) := by
  unfold schemaUnconstrained; infer_instance

/-- Whether a statement consumes external input: only the pandas
`read_csv`/`to_sql` bulk load does (possibly nested under a handler). -/
def readsInput : Op → Bool
  | Op.bulkReplace _ _ => true
  | Op.tryExcept b h => readsInput b || readsInput h
  | _ => false

/-- A CSV environment with no files in it. -/
def emptyEnv : CsvEnv := fun _ => none

/-- Referential integrity of a run outcome: holds of the state on success,
vacuous on error. -/
def ordersRefIntegrityE : Except SqlError Db → Prop
  | Except.ok db => ordersRefIntegrity db
  | Except.error _ => True

instance (db : Db) : Decidable (ordersRefIntegrity db) := by
  unfold ordersRefIntegrity; infer_instance

instance (e : Except SqlError Db) : Decidable (ordersRefIntegrityE e) := by
  cases e <;> unfold ordersRefIntegrityE <;> infer_instance

/-- A statement that does not read external input runs identically in any
CSV environment. -/
theorem exec_env_irrelevant (env env2 : CsvEnv) (db : Db) (op : Op)
    (h : readsInput op = false) : exec env db op = exec env2 db op := by
  induction op with
  | dropTableIfExists t => rfl
  | createTable t s => rfl
  | insert t rs => rfl
  | select ts st refs => rfl
  | bulkReplace p t => simp [readsInput] at h
  | update t c v wc wv => rfl
  | delete t wc wv => rfl
  | tryExcept b hd ihb ihh =>
      simp only [readsInput, Bool.or_eq_false_iff] at h
      simp only [exec]
      rw [ihb h.1, ihh h.2]

/-- A statement sequence that reads no external input runs identically in
any CSV environment. -/
theorem execAll_env_irrelevant (env env2 : CsvEnv) (db : Db) (l : List Op)
    (h : ∀ op ∈ l, readsInput op = false) : execAll env db l = execAll env2 db l := by
  induction l generalizing db with
  | nil => rfl
  | cons op rest ih =>
      simp only [execAll]
      rw [exec_env_irrelevant env env2 db op (h op (List.mem_cons_self op rest))]
      cases exec env2 db op with
      | ok d => exact ih d (fun o ho => h o (List.mem_cons_of_mem op ho))
      | error e => rfl

/-- Every state of the literal phase of the notebook (through statement 15,
before any CSV is read) satisfies referential integrity. -/
theorem refIntegrity_literal_phase (env : CsvEnv) (n : Nat) (hn : n ≤ 15) :
    ordersRefIntegrityE (traceAfter env n) := by
  have hsub : notebookOps.take n ⊆ notebookOps.take 15 := by
    rw [show notebookOps.take n = (notebookOps.take 15).take n from by
      rw [List.take_take, min_eq_left hn]]
    exact List.take_subset _ _
  have hall : ∀ op ∈ notebookOps.take 15, readsInput op = false := by decide
  have heq : traceAfter env n = traceAfter emptyEnv n :=
    execAll_env_irrelevant env emptyEnv [] _ (fun op hop => hall op (hsub hop))
  rw [heq]
  interval_cases n <;> decide

/-- No column of the literal orders table is a primary key, so a batch of
new rows always passes the primary-key check there. -/
theorem pkOk_ordersLit (rs : List (List SqlVal)) : pkOk ⟨ordersSchema, ordersRowsLit⟩ rs := by
  intro d hd hpk
  fin_cases hd <;> simp_all

/-- The foreign-key check of an insert of one row into the literal orders
table comes down to the row's customer_id occurring among the customer ids
and its product_id among the product ids. -/
theorem fk_cond_iff (oid cid pid : Int) (addr : String) :
    (∀ r ∈ [[SqlVal.int oid, SqlVal.int cid, SqlVal.int pid, SqlVal.text addr]],
        fkRowOk dbLiteral ordersSchema r) ↔
      (SqlVal.int cid ∈ dbColVals dbLiteral "customers" "id" ∧
       SqlVal.int pid ∈ dbColVals dbLiteral "products" "id") := by
  simp [fkRowOk, ordersSchema, rowValAt, colIdx, colIdxAux]

/-- Inserting one row into orders on the literal state succeeds exactly
when both foreign keys resolve, and fails with a foreign-key violation
otherwise. -/
theorem exec_insert_order (env : CsvEnv) (oid cid pid : Int) (addr : String) :
    exec env dbLiteral
        (Op.insert "orders" [[SqlVal.int oid, SqlVal.int cid, SqlVal.int pid, SqlVal.text addr]]) =
      if SqlVal.int cid ∈ dbColVals dbLiteral "customers" "id" ∧
         SqlVal.int pid ∈ dbColVals dbLiteral "products" "id"
      then Except.ok [("customers", ⟨customersSchema, customersRows⟩),
                      ("products", ⟨productsSchema, productsRows⟩),
                      ("orders", ⟨ordersSchema, ordersRowsLit ++
                        [[SqlVal.int oid, SqlVal.int cid, SqlVal.int pid, SqlVal.text addr]]⟩)]
      else Except.error SqlError.fkViolation := by
  have hlook : lookupTable dbLiteral "orders" = some ⟨ordersSchema, ordersRowsLit⟩ := rfl
  simp only [exec, hlook]
  rw [if_pos (by simp [ordersSchema])]
  rw [if_pos (pkOk_ordersLit _)]
  by_cases hfk : SqlVal.int cid ∈ dbColVals dbLiteral "customers" "id" ∧
      SqlVal.int pid ∈ dbColVals dbLiteral "products" "id"
  · rw [if_pos ((fk_cond_iff oid cid pid addr).mpr hfk), if_pos hfk]
    rfl
  · rw [if_neg (fun hh => hfk ((fk_cond_iff oid cid pid addr).mp hh)), if_neg hfk]

/-- The two Boolean SQL equality tests of the notebook's two join forms
(ON o.product_id = p.id versus WHERE p.id = o.product_id) agree. -/
theorem valEqB_comm (x y : Option SqlVal) : valEqB x y = valEqB y x := by
  cases x <;> cases y <;> simp [valEqB]
  exact ⟨Eq.symm, Eq.symm⟩

/-- Filtering a one-sided pairing and projecting the second component is
filtering the underlying list. -/
theorem filter_map_pair {α β : Type _} (p : α → β → Bool) (f : β → ℚ) (o : α) (l : List β) :
    ((l.map (fun b => (o, b))).filter (fun q => p q.1 q.2)).map (fun q => f q.2)
      = (l.filter (fun b => p o b)).map f := by
  induction l with
  | nil => rfl
  | cons b rest ih =>
      by_cases hb : p o b <;> simp [List.filter_cons, hb, ih]

/-- C1: referential integrity is an invariant of every database state the
notebook produces.  For any CSV environment holding the three files, where
(per the spec, the files themselves being absent from the repository) the
CSV customers and products cover the sample ids and the CSV orders only
reference CSV customer and product ids, every state through the last
table-populating statement — the literal INSERT phase and the three pandas
bulk loads — satisfies referential integrity: each orders.customer_id
occurs among customers.id and each orders.product_id among products.id.
The checks live in the engine model `exec`, not in the notebook's
statement list. -/
theorem referential_integrity_invariant (env : CsvEnv) (tc tp tord : Table)
    (h1 : env "data/customers.csv" = some tc)
    (h2 : env "data/products.csv" = some tp)
    (h3 : env "data/orders.csv" = some tord)
    (h4 : ∀ v ∈ dbColVals dbLiteral "orders" "customer_id", v ∈ colVals tc "id")
    (h5 : ∀ v ∈ dbColVals dbLiteral "orders" "product_id", v ∈ colVals tp "id")
    (h6 : ∀ v ∈ colVals tord "customer_id", v ∈ colVals tc "id")
    (h7 : ∀ v ∈ colVals tord "product_id", v ∈ colVals tp "id") :
    ∀ n ≤ 18, ordersRefIntegrityE (traceAfter env n) := by
  intro n hn
  by_cases h15 : n ≤ 15
  · exact refIntegrity_literal_phase env n h15
  · have h16 : n = 16 ∨ n = 17 ∨ n = 18 := by omega
    rcases h16 with rfl | rfl | rfl
    · have e16 : traceAfter env 16 = Except.ok
          [("customers", pandasTable tc),
           ("products", ⟨productsSchema, productsRows⟩),
           ("orders", ⟨ordersSchema, ordersRowsLit⟩)] := by
        have et : notebookOps.take 16 = notebookOps.take 15 ++
            [Op.bulkReplace "data/customers.csv" "customers"] := rfl
        show execAll env [] (notebookOps.take 16) = _
        rw [et, execAll_append]
        rw [show execAll env [] (notebookOps.take 15) = Except.ok dbLiteral from rfl]
        simp only [execAll, exec, h1]
        rfl
      rw [e16]
      refine ⟨?_, ?_⟩
      · show ∀ v ∈ dbColVals dbLiteral "orders" "customer_id", v ∈ colVals (pandasTable tc) "id"
        rw [colVals_pandasTable]
        exact h4
      · show ∀ v ∈ dbColVals dbLiteral "orders" "product_id",
            v ∈ dbColVals dbLiteral "products" "id"
        decide
    · have e17 : traceAfter env 17 = Except.ok
          [("customers", pandasTable tc),
           ("products", pandasTable tp),
           ("orders", ⟨ordersSchema, ordersRowsLit⟩)] := by
        have et : notebookOps.take 17 = notebookOps.take 15 ++
            [Op.bulkReplace "data/customers.csv" "customers",
             Op.bulkReplace "data/products.csv" "products"] := rfl
        show execAll env [] (notebookOps.take 17) = _
        rw [et, execAll_append]
        rw [show execAll env [] (notebookOps.take 15) = Except.ok dbLiteral from rfl]
        simp only [execAll, exec, h1, h2]
        rfl
      rw [e17]
      refine ⟨?_, ?_⟩
      · show ∀ v ∈ dbColVals dbLiteral "orders" "customer_id", v ∈ colVals (pandasTable tc) "id"
        rw [colVals_pandasTable]
        exact h4
      · show ∀ v ∈ dbColVals dbLiteral "orders" "product_id", v ∈ colVals (pandasTable tp) "id"
        rw [colVals_pandasTable]
        exact h5
    · have e18 : traceAfter env 18 = Except.ok
          [("customers", pandasTable tc),
           ("products", pandasTable tp),
           ("orders", pandasTable tord)] := by
        have et : notebookOps.take 18 = notebookOps.take 15 ++
            [Op.bulkReplace "data/customers.csv" "customers",
             Op.bulkReplace "data/products.csv" "products",
             Op.bulkReplace "data/orders.csv" "orders"] := rfl
        show execAll env [] (notebookOps.take 18) = _
        rw [et, execAll_append]
        rw [show execAll env [] (notebookOps.take 15) = Except.ok dbLiteral from rfl]
        simp only [execAll, exec, h1, h2, h3]
        rfl
      rw [e18]
      refine ⟨?_, ?_⟩
      · show ∀ v ∈ colVals (pandasTable tord) "customer_id", v ∈ colVals (pandasTable tc) "id"
        rw [colVals_pandasTable, colVals_pandasTable]
        exact h6
      · show ∀ v ∈ colVals (pandasTable tord) "product_id", v ∈ colVals (pandasTable tp) "id"
        rw [colVals_pandasTable, colVals_pandasTable]
        exact h7

/-- C1 witness: with the modelled CSV files, the state after the last
populating statement satisfies referential integrity. -/
theorem referential_integrity_invariant_witness :
    ordersRefIntegrityE (traceAfter stdCsvEnv 18) :=
  referential_integrity_invariant stdCsvEnv csvCustomers csvProducts csvOrders
    rfl rfl rfl (by decide) (by decide) (by decide) (by decide) 18 (by decide)

/-- C2: the schemas the notebook creates match the spec's data model:
customers has a unique integer key id with text name and text
billing_address; products has a unique integer key id with a numeric
price; orders has an integer id that is not a primary key (so not required
unique), foreign-key references to customers(id) and products(id), and a
text delivery address; and every column of all three tables is declared
NOT NULL. -/
theorem schemas_match_data_model :
    (Op.createTable "customers" customersSchema ∈ notebookOps ∧
     Op.createTable "products" productsSchema ∈ notebookOps ∧
     Op.createTable "orders" ordersSchema ∈ notebookOps) ∧
    (uniqueIntKey customersSchema "id" ∧ hasCol customersSchema "name" ColType.text ∧
     hasCol customersSchema "billing_address" ColType.text) ∧
    (uniqueIntKey productsSchema "id" ∧ hasCol productsSchema "price" ColType.number) ∧
    (hasCol ordersSchema "id" ColType.integer ∧
     (∀ d ∈ ordersSchema.cols, d.cname = "id" → d.primaryKey = false) ∧
     FKey.mk "customer_id" "customers" "id" ∈ ordersSchema.foreignKeys ∧
     FKey.mk "product_id" "products" "id" ∈ ordersSchema.foreignKeys ∧
     hasCol ordersSchema "delivery_address" ColType.text) ∧
    (allNotNull customersSchema ∧ allNotNull productsSchema ∧ allNotNull ordersSchema) := by
  decide

/-- C3: the lifecycle of the notebook's database: the first six statements
drop and recreate the three tables; the row-entering statements are the
five literal INSERTs (customers and products once each, orders in three
statements whose seven rows are pairwise distinct) and the three CSV bulk
loads, one per table; no UPDATE and no DELETE statement occurs anywhere;
and an INSERT never modifies or removes an existing row — every table
keeps its schema and its rows as a prefix. -/
theorem lifecycle_no_update_or_delete :
    notebookOps.take 6 =
      [Op.dropTableIfExists "customers", Op.dropTableIfExists "products",
       Op.dropTableIfExists "orders",
       Op.createTable "customers" customersSchema,
       Op.createTable "products" productsSchema,
       Op.createTable "orders" ordersSchema] ∧
    (∀ op ∈ notebookOps, isUpdateOrDelete op = false) ∧
    insertTargets = ["customers", "products", "orders", "orders", "orders"] ∧
    bulkLoads.map Prod.snd = ["customers", "products", "orders"] ∧
    customersRows.Nodup ∧ productsRows.Nodup ∧ ordersRowsLit.Nodup ∧
    (∀ (env : CsvEnv) (db : Db) (t : String) (rs : List (List SqlVal)) (db2 : Db),
       exec env db (Op.insert t rs) = Except.ok db2 →
       ∀ tn tb, lookupTable db tn = some tb →
         ∃ tb2, lookupTable db2 tn = some tb2 ∧ tb2.schema = tb.schema ∧
           ∃ extra, tb2.rows = tb.rows ++ extra) := by
  refine ⟨by decide, by decide, by decide, by decide, by decide, by decide, by decide, ?_⟩
  intro env db t rs db2 hex tn tb hlk
  cases hl : lookupTable db t with
  | none =>
      simp only [exec, hl] at hex
      exact Except.noConfusion hex
  | some tb0 =>
      simp only [exec, hl] at hex
      split at hex
      · split at hex
        · split at hex
          · have hdb := Except.ok.inj hex
            subst hdb
            rw [lookupTable_setTable]
            by_cases htn : t = tn
            · subst htn
              rw [hl] at hlk
              have htb := Option.some.inj hlk
              subst htb
              exact ⟨⟨tb0.schema, tb0.rows ++ rs⟩, by simp, rfl, rs, rfl⟩
            · exact ⟨tb, by simp [htn, hlk], rfl, [], by simp⟩
          · exact Except.noConfusion hex
        · exact Except.noConfusion hex
      · exact Except.noConfusion hex

/-- C3 witness: no UPDATE or DELETE occurs, and a concrete successful
INSERT (of no rows) into orders leaves the customers table's schema and
rows in place. -/
theorem lifecycle_no_update_or_delete_witness :
    (∀ op ∈ notebookOps, isUpdateOrDelete op = false) ∧
    (∃ tb2, lookupTable (setTable dbLiteral "orders" ⟨ordersSchema, ordersRowsLit ++ []⟩)
        "customers" = some tb2 ∧ tb2.schema = customersSchema ∧
      ∃ extra, tb2.rows = customersRows ++ extra) :=
  ⟨lifecycle_no_update_or_delete.2.1,
   lifecycle_no_update_or_delete.2.2.2.2.2.2.2 stdCsvEnv dbLiteral "orders" []
     (setTable dbLiteral "orders" ⟨ordersSchema, ordersRowsLit ++ []⟩) rfl
     "customers" ⟨customersSchema, customersRows⟩ rfl⟩

/-- C4: on the literal state, inserting an orders row whose customer_id is
absent from customers or whose product_id is absent from products fails
with a foreign-key violation; when both referenced rows exist the insert
succeeds and appends the row; and the notebook inserts into customers and
products before orders. -/
theorem orders_insert_foreign_key_enforcement :
    (∀ (env : CsvEnv) (oid cid pid : Int) (addr : String),
       (SqlVal.int cid ∉ dbColVals dbLiteral "customers" "id" ∨
        SqlVal.int pid ∉ dbColVals dbLiteral "products" "id") →
       exec env dbLiteral
           (Op.insert "orders" [[SqlVal.int oid, SqlVal.int cid, SqlVal.int pid, SqlVal.text addr]])
         = Except.error SqlError.fkViolation) ∧
    (∀ (env : CsvEnv) (oid cid pid : Int) (addr : String),
       SqlVal.int cid ∈ dbColVals dbLiteral "customers" "id" →
       SqlVal.int pid ∈ dbColVals dbLiteral "products" "id" →
       exec env dbLiteral
           (Op.insert "orders" [[SqlVal.int oid, SqlVal.int cid, SqlVal.int pid, SqlVal.text addr]])
         = Except.ok [("customers", ⟨customersSchema, customersRows⟩),
                      ("products", ⟨productsSchema, productsRows⟩),
                      ("orders", ⟨ordersSchema, ordersRowsLit ++
                        [[SqlVal.int oid, SqlVal.int cid, SqlVal.int pid, SqlVal.text addr]]⟩)]) ∧
    insertTargets = ["customers", "products", "orders", "orders", "orders"] := by
  refine ⟨?_, ?_, by decide⟩
  · intro env oid cid pid addr h
    rw [exec_insert_order]
    refine if_neg (fun hc => ?_)
    rcases h with h | h
    · exact h hc.1
    · exact h hc.2
  · intro env oid cid pid addr hc hp
    rw [exec_insert_order]
    exact if_pos ⟨hc, hp⟩

/-- C4 witness: inserting an orders row referencing the absent customer
999 fails with a foreign-key violation, while the same row referencing the
existing customer 435 and product 103 succeeds. -/
theorem orders_insert_foreign_key_enforcement_witness :
    exec stdCsvEnv dbLiteral
        (Op.insert "orders"
          [[SqlVal.int 99999, SqlVal.int 999, SqlVal.int 103, SqlVal.text "Paris, France"]])
      = Except.error SqlError.fkViolation ∧
    exec stdCsvEnv dbLiteral
        (Op.insert "orders"
          [[SqlVal.int 99999, SqlVal.int 435, SqlVal.int 103, SqlVal.text "Paris, France"]])
      = Except.ok [("customers", ⟨customersSchema, customersRows⟩),
                   ("products", ⟨productsSchema, productsRows⟩),
                   ("orders", ⟨ordersSchema, ordersRowsLit ++
                     [[SqlVal.int 99999, SqlVal.int 435, SqlVal.int 103,
                       SqlVal.text "Paris, France"]]⟩)] :=
  ⟨orders_insert_foreign_key_enforcement.1 stdCsvEnv 99999 999 103 "Paris, France" (by decide),
   orders_insert_foreign_key_enforcement.2.1 stdCsvEnv 99999 435 103 "Paris, France"
     (by decide) (by decide)⟩

/-- C5: on the literal sample data, SELECT SUM(p.price) FROM orders JOIN
products ON orders.product_id = products.id yields 6.95 + 35.50 + 6.95 +
6.95 + 101.99 + 21.35 + 16.95, which is 196.64. -/
theorem join_sum_totals :
    sumPriceJoinOn ⟨ordersSchema, ordersRowsLit⟩ ⟨productsSchema, productsRows⟩
      = 6.95 + 35.50 + 6.95 + 6.95 + 101.99 + 21.35 + 16.95 ∧
    (6.95 + 35.50 + 6.95 + 6.95 + 101.99 + 21.35 + 16.95 : ℚ) = 196.64 := by
  constructor
  · have h : sumPriceJoinOn ⟨ordersSchema, ordersRowsLit⟩ ⟨productsSchema, productsRows⟩
        = ([6.95, 35.5, 6.95, 6.95, 101.99, 21.35, 16.95] : List ℚ).sum := rfl
    rw [h]
    simp [List.sum_cons, List.sum_nil]
    norm_num
  · norm_num

/-- C6: after the literal INSERT statements (statement index 12), SELECT *
FROM customers returns exactly the three rows Omar (435, Berlin), Stuart
(5692, Dover) and Vidhya (6127, Mumbai), in insertion order, and no other
rows. -/
theorem customers_select_three_rows :
    traceAfter stdCsvEnv 12 = Except.ok dbLiteral ∧
    selectStarRows dbLiteral "customers" =
      some [[SqlVal.int 435, SqlVal.text "Omar", SqlVal.text "Berlin, Germany"],
            [SqlVal.int 5692, SqlVal.text "Stuart", SqlVal.text "Dover, UK"],
            [SqlVal.int 6127, SqlVal.text "Vidhya", SqlVal.text "Mumbai, India"]] :=
  ⟨rfl, rfl⟩

/-- C7: the notebook reads exactly the three CSV files customers.csv,
products.csv and orders.csv from its data directory, each written into the
database table of the same name; every other statement form consumes no
external input — it runs identically in any CSV environment. -/
theorem csv_inputs_only :
    bulkLoads = [("data/customers.csv", "customers"), ("data/products.csv", "products"),
                 ("data/orders.csv", "orders")] ∧
    (∀ pt ∈ bulkLoads, pt.1 = "data/" ++ pt.2 ++ ".csv") ∧
    (∀ (env env2 : CsvEnv) (db : Db) (op : Op), readsInput op = false →
       exec env db op = exec env2 db op) := by
  refine ⟨by decide, by decide, ?_⟩
  intro env env2 db op h
  exact exec_env_irrelevant env env2 db op h

/-- C7 witness: the three CSV loads as listed, and a SELECT runs the same
whether or not any CSV file is present. -/
theorem csv_inputs_only_witness :
    bulkLoads = [("data/customers.csv", "customers"), ("data/products.csv", "products"),
                 ("data/orders.csv", "orders")] ∧
    exec stdCsvEnv dbLiteral (Op.select ["customers"] true [])
      = exec emptyEnv dbLiteral (Op.select ["customers"] true []) :=
  ⟨csv_inputs_only.1,
   csv_inputs_only.2.2 stdCsvEnv emptyEnv dbLiteral (Op.select ["customers"] true []) (by decide)⟩

/-- C8: no statement of the notebook is (or contains) an exception
handler, and the run semantics propagates every engine failure unchanged:
if a statement errors, running the sequence from it returns exactly that
error. -/
theorem no_error_handler_and_propagation :
    (∀ op ∈ notebookOps, hasHandler op = false) ∧
    (∀ (env : CsvEnv) (db : Db) (op : Op) (rest : List Op) (e : SqlError),
       exec env db op = Except.error e →
       execAll env db (op :: rest) = Except.error e) := by
  constructor
  · decide
  · intro env db op rest e h
    simp [execAll, h]

/-- C8 witness: no notebook statement has a handler, and an insert into a
missing table propagates its error past the rest of the sequence. -/
theorem no_error_handler_and_propagation_witness :
    (∀ op ∈ notebookOps, hasHandler op = false) ∧
    execAll stdCsvEnv [] (Op.insert "orders" [] :: [Op.select ["orders"] true []])
      = Except.error (SqlError.noSuchTable "orders") :=
  ⟨no_error_handler_and_propagation.1,
   no_error_handler_and_propagation.2 stdCsvEnv [] (Op.insert "orders" [])
     [Op.select ["orders"] true []] (SqlError.noSuchTable "orders") (by decide)⟩

/-- C9: the pandas bulk load with if_exists="replace" fully replaces each
table: after the three loads the database holds exactly the CSV contents
(any prior rows are gone — a replaced table's contents are exactly the
loaded CSV's rows, whatever was there before); none of the literal
customers or orders rows remains; none of the hand-written constraints
(PRIMARY KEY, NOT NULL, FOREIGN KEY) survives; and the later queries
reference delivery_country and billing_country, columns of the CSV-loaded
tables that the original CREATE TABLE schemas do not have. -/
theorem bulk_replace_semantics :
    traceAfter stdCsvEnv 18 =
      Except.ok [("customers", pandasTable csvCustomers),
                 ("products", pandasTable csvProducts),
                 ("orders", pandasTable csvOrders)] ∧
    (∀ (env : CsvEnv) (db : Db) (p t : String) (tb : Table) (db2 : Db),
       env p = some tb →
       exec env db (Op.bulkReplace p t) = Except.ok db2 →
       lookupTable db2 t = some (pandasTable tb)) ∧
    (∀ r ∈ customersRows, r ∉ (pandasTable csvCustomers).rows) ∧
    (∀ r ∈ ordersRowsLit, r ∉ (pandasTable csvOrders).rows) ∧
    (schemaUnconstrained (pandasTable csvCustomers).schema ∧
     schemaUnconstrained (pandasTable csvProducts).schema ∧
     schemaUnconstrained (pandasTable csvOrders).schema) ∧
    ("delivery_country" ∉ colNames ordersSchema ∧
     "delivery_country" ∈ colNames (pandasTable csvOrders).schema) ∧
    ("billing_country" ∉ colNames customersSchema ∧
     "billing_country" ∈ colNames (pandasTable csvCustomers).schema) ∧
    (("orders", "delivery_country") ∈ postLoadColumnRefs ∧
     ("customers", "billing_country") ∈ postLoadColumnRefs) := by
  refine ⟨rfl, ?_, by decide, by decide, by decide, by decide, by decide, by decide⟩
  intro env db p t tb db2 henv hex
  simp only [exec, henv] at hex
  cases hex
  rw [lookupTable_setTable]
  simp

/-- C9 witness: replacing the customers table of the literal state by the
CSV contents leaves exactly the CSV table there. -/
theorem bulk_replace_semantics_witness :
    lookupTable (setTable dbLiteral "customers" (pandasTable csvCustomers)) "customers"
      = some (pandasTable csvCustomers) :=
  bulk_replace_semantics.2.1 stdCsvEnv dbLiteral "data/customers.csv" "customers"
    csvCustomers (setTable dbLiteral "customers" (pandasTable csvCustomers)) rfl rfl

/-- C10: for every pair of orders and products tables, the notebook's two
join formulations agree: SELECT SUM(p.price) FROM orders AS o JOIN
products AS p ON o.product_id = p.id equals SELECT SUM(p.price) FROM
orders o, products p WHERE p.id = o.product_id. -/
theorem join_forms_equivalent (os ps : Table) :
    sumPriceJoinOn os ps = sumPriceCommaWhere os ps := by
  unfold sumPriceJoinOn sumPriceCommaWhere
  induction os.rows with
  | nil => rfl
  | cons o rest ih =>
      simp only [List.flatMap_cons, List.filter_append, List.map_append, List.sum_append]
      rw [ih]
      congr 1
      rw [filter_map_pair
        (fun a b => valEqB (rowValAt ps.schema "id" b) (rowValAt os.schema "product_id" a))
        (fun b => priceQ ps b) o ps.rows]
      congr 1
      congr 1
      apply List.filter_congr
      intro b hb
      exact valEqB_comm _ _

end DSQL
